import Mathlib

/-!
Shallow embedding of the Pokemon CRUD API.

The repository has two source files, both versions of `PokemonController`:
`src/unnamed/part_000` (the full variant, with `create`, `list`, `count`,
`getOne`, `delete`) and `src/src/endpoints/pokemon/PokemonController.ts`
(a variant without `list` whose `create` answers with a success message).
The `PokemonRepository` and `Pokemon` entity they import are not part of the
sources, so the record store is modelled from the specification ("Record
Store": insert, findOne, findAndCount, count, clear over a persistent table
of Pokemon records).

The store is a list of records in store order.  Each controller operation is
a pure function from the store (plus the parsed request data) to the HTTP
response together with the store left behind by the repository calls it
performed.  JavaScript quirks that matter are kept: `Number(q) || d` falls
back to the default both when the parameter is absent (NaN) and when it
parses to 0 (falsy), which `jsNumOr` captures with an `Option Int` input.
-/

/-- A Pokemon record, after `Pokemon.entity`: fields `name` and `type`. -/
structure Pokemon where
  name : String
  type : String
deriving DecidableEq, Repr

/-- The Record Store contents: the table of Pokemon records in store order. -/
abbrev Store := List Pokemon

namespace PokemonRepository

/-- Modelled from the spec: `insert(record)` of the Record Store
(`Pokemon.repository` is not under `src/`) "persists a new record with the
given fields".  The flag `ok` models whether persistence succeeds, since
"persistence failures during create surface as HTTP 500"; on success the
record is appended to the table, on failure nothing is returned. -/
def insert (s : Store) (p : Pokemon) (ok : Bool) : Option Store :=
  if ok then some (s ++ [p]) else none

/-- Modelled from the spec: `findOne(filter)` of the Record Store is an
"exact-match lookup by name" ("filter-by-equality lookups"); it yields the
first record of the table whose name equals the filter, if any. -/
def findOne (s : Store) (name : String) : Option Pokemon :=
  s.find? (fun p => p.name == name)

/-- Modelled from the spec: `findAndCount(pagination)` of the Record Store
returns "the page slice" — `skip` records dropped from the front, then at
most `take` records taken, in store order — "and the full unfiltered count". -/
def findAndCount (s : Store) (take skip : Int) : List Pokemon × Nat :=
  ((s.drop skip.toNat).take take.toNat, s.length)

/-- Modelled from the spec: `count()` of the Record Store returns the total
record count. -/
def count (s : Store) : Nat :=
  s.length

/-- Modelled from the spec: `clear()` of the Record Store "removes ALL
records unconditionally". -/
def clear (_ : Store) : Store :=
  []

end PokemonRepository

/-- JavaScript `Number(q) || d`: when the query parameter is absent,
`Number(undefined)` is NaN, which is falsy, so the default `d` is used; a
parameter that parses to `0` is falsy too and also yields `d`; any other
parsed number is used as is. -/
def jsNumOr (q : Option Int) (d : Int) : Int :=
  match q with
  | none => d
  | some v => if v = 0 then d else v

/-- The effective limit of `PokemonController.list` (part_000, line 115):
`Math.min(Number(req.query.limit) || 50, 100)`. -/
def listLimit (qlimit : Option Int) : Int :=
  min (jsNumOr qlimit 50) 100

/-- The effective page of `PokemonController.list` (part_000, line 116):
`Math.max(Number(req.query.page) || 1, 1)`. -/
def listPage (qpage : Option Int) : Int :=
  max (jsNumOr qpage 1) 1

/-- The offset of `PokemonController.list` (part_000, line 117):
`(page - 1) * limit` over the effective values. -/
def listOffset (qlimit qpage : Option Int) : Int :=
  (listPage qpage - 1) * listLimit qlimit

/-- The body of a list response: `{items, total, limit, page}`. -/
structure ListBody where
  items : List Pokemon
  total : Nat
  limit : Int
  page : Int
deriving DecidableEq, Repr

/-- An HTTP response carrying a body of type `α`. -/
structure Resp (α : Type) where
  status : Nat
  data : α
deriving DecidableEq, Repr

/-- The `data` payload of a create response: the created entity (part_000,
line 55) or a message string (both variants use a message on failure, and
the `.ts` variant also on success). -/
inductive CreateData where
  | entity (p : Pokemon)
  | message (msg : String)
deriving DecidableEq, Repr

namespace PokemonController

/-- `create` of `src/unnamed/part_000` (lines 45-59): builds the entity from
the request body, inserts it, and answers 201 with the entity on success or
500 with a generic message on failure.  No validation of `name`/`type` is
performed before the insert. -/
def create (s : Store) (name ptype : String) (ok : Bool) :
    Resp CreateData × Store :=
  let pokemon : Pokemon := ⟨name, ptype⟩
  match PokemonRepository.insert s pokemon ok with
  | some s2 => (⟨201, .entity pokemon⟩, s2)
  | none => (⟨500, .message "Erro ao criar Pokémon."⟩, s)

/-- `create` of `src/src/endpoints/pokemon/PokemonController.ts` (lines
44-57): same insert, but answers 201 with a success message. -/
def createV2 (s : Store) (name ptype : String) (ok : Bool) :
    Resp CreateData × Store :=
  match PokemonRepository.insert s ⟨name, ptype⟩ ok with
  | some s2 => (⟨201, .message "Pokémon criado com sucesso!"⟩, s2)
  | none => (⟨500, .message "Erro ao criar Pokémon."⟩, s)

/-- `list` of `src/unnamed/part_000` (lines 114-129): computes the effective
limit, page and offset, calls `findAndCount` with `take = limit` and
`skip = offset`, and answers 200 with `{items, total, limit, page}`. -/
def list (s : Store) (qlimit qpage : Option Int) : Resp ListBody × Store :=
  let limit := listLimit qlimit
  let page := listPage qpage
  let offset := listOffset qlimit qpage
  let r := PokemonRepository.findAndCount s limit offset
  (⟨200, ⟨r.1, r.2, limit, page⟩⟩, s)

/-- `count` of `src/unnamed/part_000` (lines 154-158): answers 200 with the
total record count. -/
def count (s : Store) : Resp Nat × Store :=
  (⟨200, PokemonRepository.count s⟩, s)

/-- `getOne` of `src/unnamed/part_000` (lines 192-198), identical in the
`.ts` variant (lines 120-126): looks the name up with `findOne` and answers
`res.status(pokemon ? 200 : 404).send({ data: pokemon })`. -/
def getOne (s : Store) (name : String) : Resp (Option Pokemon) × Store :=
  let pokemon := PokemonRepository.findOne s name
  (⟨if pokemon.isSome then 200 else 404, pokemon⟩, s)

/-- `delete` of `src/unnamed/part_000` (lines 223-226), identical in the
`.ts` variant (lines 151-154): clears the store and answers 200 with a
success message. -/
def delete (s : Store) : Resp String × Store :=
  (⟨200, "Pokemons excluídos com sucesso!"⟩, PokemonRepository.clear s)

end PokemonController

/-- A concrete store of 12 records, used to instantiate scenario claims. -/
def store12 : Store :=
  [⟨"p0", "t"⟩, ⟨"p1", "t"⟩, ⟨"p2", "t"⟩, ⟨"p3", "t"⟩, ⟨"p4", "t"⟩,
   ⟨"p5", "t"⟩, ⟨"p6", "t"⟩, ⟨"p7", "t"⟩, ⟨"p8", "t"⟩, ⟨"p9", "t"⟩,
   ⟨"p10", "t"⟩, ⟨"p11", "t"⟩]

/-- C1: with exactly 12 records in the store, `list` with `limit=5, page=2`
answers 200 with `total=12`, `limit=5`, `page=2`, and `items` is the slice of
5 records starting at zero-based offset 5, in store order. -/
theorem C1_list_limit5_page2 (s : Store) (h : s.length = 12) :
    (PokemonController.list s (some 5) (some 2)).1.status = 200 ∧
    (PokemonController.list s (some 5) (some 2)).1.data.total = 12 ∧
    (PokemonController.list s (some 5) (some 2)).1.data.limit = 5 ∧
    (PokemonController.list s (some 5) (some 2)).1.data.page = 2 ∧
    (PokemonController.list s (some 5) (some 2)).1.data.items.length = 5 ∧
    ∀ i, i < 5 →
      (PokemonController.list s (some 5) (some 2)).1.data.items[i]? = s[5 + i]? := by
  have hitems : (PokemonController.list s (some 5) (some 2)).1.data.items =
      (s.drop 5).take 5 := rfl
  refine ⟨rfl, h, rfl, rfl, ?_, ?_⟩
  · rw [hitems]
    simp [h]
  · intro i hi
    rw [hitems, List.getElem?_take_of_lt hi, List.getElem?_drop]

/-- C1 witness: the scenario evaluated on a concrete 12-record store. -/
theorem C1_witness :
    (PokemonController.list store12 (some 5) (some 2)).1.status = 200 ∧
    (PokemonController.list store12 (some 5) (some 2)).1.data.total = 12 ∧
    (PokemonController.list store12 (some 5) (some 2)).1.data.limit = 5 ∧
    (PokemonController.list store12 (some 5) (some 2)).1.data.page = 2 ∧
    (PokemonController.list store12 (some 5) (some 2)).1.data.items.length = 5 ∧
    ∀ i, i < 5 →
      (PokemonController.list store12 (some 5) (some 2)).1.data.items[i]? =
        store12[5 + i]? :=
  C1_list_limit5_page2 store12 (by decide)

/-- C2: a `limit` parameter parsing to a value above 100 is clamped: the
response echoes `limit = 100` and the page slice requested from the store
uses take `100`; an absent `limit` parameter gives the default 50. -/
theorem C2_limit_clamped (s : Store) (qpage : Option Int) (v : Int)
    (h : 100 < v) :
    (PokemonController.list s (some v) qpage).1.data.limit = 100 ∧
    (PokemonController.list s (some v) qpage).1.data.items =
      (PokemonRepository.findAndCount s 100 (listOffset (some v) qpage)).1 ∧
    (PokemonController.list s none qpage).1.data.limit = 50 := by
  have hl : listLimit (some v) = 100 := by
    simp only [listLimit, jsNumOr]
    have hne : ¬ v = 0 := by omega
    rw [if_neg hne]
    omega
  refine ⟨hl, ?_, rfl⟩
  show (PokemonRepository.findAndCount s (listLimit (some v))
      (listOffset (some v) qpage)).1 = _
  rw [hl]

/-- C2 witness: `limit=101` clamps to 100, absent `limit` defaults to 50. -/
theorem C2_witness :
    (PokemonController.list store12 (some 101) none).1.data.limit = 100 ∧
    (PokemonController.list store12 (some 101) none).1.data.items =
      (PokemonRepository.findAndCount store12 100 (listOffset (some 101) none)).1 ∧
    (PokemonController.list store12 none none).1.data.limit = 50 :=
  C2_limit_clamped store12 none 101 (by decide)

/-- C3: a `page` parameter parsing to a value at most 0 is floored: the
effective page is 1 and the computed offset is 0; an absent `page` parameter
also gives page 1. -/
theorem C3_page_floored (s : Store) (qlimit : Option Int) (v : Int)
    (h : v ≤ 0) :
    (PokemonController.list s qlimit (some v)).1.data.page = 1 ∧
    listOffset qlimit (some v) = 0 ∧
    (PokemonController.list s qlimit none).1.data.page = 1 := by
  have hp : listPage (some v) = 1 := by
    simp only [listPage, jsNumOr]
    rcases eq_or_ne v 0 with h0 | h0
    · rw [if_pos h0]
      exact max_self 1
    · rw [if_neg h0]
      exact max_eq_right (by omega)
  refine ⟨hp, ?_, rfl⟩
  simp [listOffset, hp]

/-- C3 witness: `page=0` and `page=-3` both give page 1 and offset 0. -/
theorem C3_witness :
    (PokemonController.list store12 (some 5) (some (-3))).1.data.page = 1 ∧
    listOffset (some 5) (some (-3)) = 0 ∧
    (PokemonController.list store12 (some 5) none).1.data.page = 1 :=
  C3_page_floored store12 (some 5) (-3) (by decide)

/-- C4: the offset handed to the store as `skip` equals
`(effectivePage - 1) * effectiveLimit` where effectivePage and effectiveLimit
are exactly the values echoed in the response body. -/
theorem C4_offset_invariant (s : Store) (qlimit qpage : Option Int) :
    listOffset qlimit qpage =
      ((PokemonController.list s qlimit qpage).1.data.page - 1) *
        (PokemonController.list s qlimit qpage).1.data.limit ∧
    (PokemonController.list s qlimit qpage).1.data.items =
      (PokemonRepository.findAndCount s (listLimit qlimit)
        (listOffset qlimit qpage)).1 :=
  ⟨rfl, rfl⟩

/-- C5: `getOne` answers 200 with the record when a record of that exact name
exists, and 404 with null data when none does; in particular on the empty
store it answers 404 with null data. -/
theorem C5_getOne_found_or_404 (s : Store) (name : String) :
    ((∃ p ∈ s, p.name = name) →
      (PokemonController.getOne s name).1.status = 200 ∧
      ∃ p, (PokemonController.getOne s name).1.data = some p ∧
        p.name = name) ∧
    ((∀ p ∈ s, p.name ≠ name) →
      (PokemonController.getOne s name).1.status = 404 ∧
      (PokemonController.getOne s name).1.data = none) ∧
    ((PokemonController.getOne ([] : Store) name).1.status = 404 ∧
      (PokemonController.getOne ([] : Store) name).1.data = none) := by
  refine ⟨?_, ?_, rfl, rfl⟩
  · rintro ⟨p, hmem, hname⟩
    have hsome : (s.find? (fun q => q.name == name)).isSome := by
      rw [List.find?_isSome]
      exact ⟨p, hmem, by simp [hname]⟩
    obtain ⟨q, hq⟩ := Option.isSome_iff_exists.mp hsome
    constructor
    · show (if (PokemonRepository.findOne s name).isSome then 200 else 404) = 200
      rw [if_pos]
      exact hsome
    · refine ⟨q, hq, ?_⟩
      have := List.find?_some hq
      simpa using this
  · intro hnone
    have hfind : s.find? (fun q => q.name == name) = none := by
      rw [List.find?_eq_none]
      intro x hx
      simpa using hnone x hx
    constructor
    · show (if (PokemonRepository.findOne s name).isSome then 200 else 404) = 404
      rw [PokemonRepository.findOne, hfind]
      rfl
    · show PokemonRepository.findOne s name = none
      exact hfind

/-- C5 witness: a singleton store where the lookup succeeds. -/
theorem C5_witness :
    (PokemonController.getOne ([⟨"Pikachu", "Electric"⟩] : Store)
      "Pikachu").1.status = 200 ∧
    ∃ p, (PokemonController.getOne ([⟨"Pikachu", "Electric"⟩] : Store)
      "Pikachu").1.data = some p ∧ p.name = "Pikachu" :=
  (C5_getOne_found_or_404 [⟨"Pikachu", "Electric"⟩] "Pikachu").1
    ⟨⟨"Pikachu", "Electric"⟩, by simp, rfl⟩

/-- C6: `create` answers 201 when the insert succeeds — with the created
entity in `part_000` and a success message in the `.ts` variant — and 500
with the generic message otherwise; no validation of name or type is
performed, so this holds for every name and type, empty or duplicate. -/
theorem C6_create_statuses (s : Store) (name ptype : String) (ok : Bool) :
    (ok = true →
      (PokemonController.create s name ptype ok).1.status = 201 ∧
      (PokemonController.create s name ptype ok).1.data =
        .entity ⟨name, ptype⟩ ∧
      (PokemonController.create s name ptype ok).2 = s ++ [⟨name, ptype⟩] ∧
      (PokemonController.createV2 s name ptype ok).1.status = 201 ∧
      (PokemonController.createV2 s name ptype ok).1.data =
        .message "Pokémon criado com sucesso!") ∧
    (ok = false →
      (PokemonController.create s name ptype ok).1.status = 500 ∧
      (PokemonController.create s name ptype ok).1.data =
        .message "Erro ao criar Pokémon." ∧
      (PokemonController.create s name ptype ok).2 = s ∧
      (PokemonController.createV2 s name ptype ok).1.status = 500 ∧
      (PokemonController.createV2 s name ptype ok).1.data =
        .message "Erro ao criar Pokémon.") := by
  constructor
  · rintro rfl
    exact ⟨rfl, rfl, rfl, rfl, rfl⟩
  · rintro rfl
    exact ⟨rfl, rfl, rfl, rfl, rfl⟩

/-- C6 witness: a successful insert of an empty-named record answers 201. -/
theorem C6_witness :
    (PokemonController.create store12 "" "" true).1.status = 201 ∧
    (PokemonController.create store12 "" "" true).1.data = .entity ⟨"", ""⟩ ∧
    (PokemonController.create store12 "" "" true).2 = store12 ++ [⟨"", ""⟩] ∧
    (PokemonController.createV2 store12 "" "" true).1.status = 201 ∧
    (PokemonController.createV2 store12 "" "" true).1.data =
      .message "Pokémon criado com sucesso!" :=
  (C6_create_statuses store12 "" "" true).1 rfl

/-- C7: `delete` answers 200 with the success message for every store state,
leaves no records behind, and a subsequent `count` reports 0. -/
theorem C7_delete_then_count_zero (s : Store) :
    (PokemonController.delete s).1.status = 200 ∧
    (PokemonController.delete s).1.data = "Pokemons excluídos com sucesso!" ∧
    (PokemonController.delete s).2 = [] ∧
    (PokemonController.count (PokemonController.delete s).2).1.data = 0 :=
  ⟨rfl, rfl, rfl, rfl⟩

/-- C8: `delete` is idempotent: two calls in a row both answer 200, the
second leaves the store exactly as the first did, and the record count after
the second call is 0. -/
theorem C8_delete_idempotent (s : Store) :
    (PokemonController.delete s).1.status = 200 ∧
    (PokemonController.delete (PokemonController.delete s).2).1.status = 200 ∧
    (PokemonController.delete (PokemonController.delete s).2).2 =
      (PokemonController.delete s).2 ∧
    (PokemonController.count
      (PokemonController.delete (PokemonController.delete s).2).2).1.data = 0 :=
  ⟨rfl, rfl, rfl, rfl⟩

/-- C9: if creating Pikachu answers 201, then a subsequent `getOne` for
"Pikachu" on the resulting store answers 200 with a record named "Pikachu". -/
theorem C9_create_getOne_roundtrip (s : Store) (ok : Bool)
    (h : (PokemonController.create s "Pikachu" "Electric" ok).1.status = 201) :
    (PokemonController.getOne
      (PokemonController.create s "Pikachu" "Electric" ok).2
      "Pikachu").1.status = 200 ∧
    ∃ p, (PokemonController.getOne
      (PokemonController.create s "Pikachu" "Electric" ok).2
      "Pikachu").1.data = some p ∧ p.name = "Pikachu" := by
  cases ok with
  | false =>
    have h500 : (PokemonController.create s "Pikachu" "Electric"
        false).1.status = 500 := rfl
    rw [h500] at h
    exact absurd h (by decide)
  | true =>
    have hs2 : (PokemonController.create s "Pikachu" "Electric" true).2 =
        s ++ [⟨"Pikachu", "Electric"⟩] := rfl
    have hsome : (((s ++ [⟨"Pikachu", "Electric"⟩]) :
        Store).find? (fun q => q.name == "Pikachu")).isSome := by
      rw [List.find?_isSome]
      exact ⟨⟨"Pikachu", "Electric"⟩, by simp, by simp⟩
    obtain ⟨q, hq⟩ := Option.isSome_iff_exists.mp hsome
    constructor
    · show (if (PokemonRepository.findOne
          (PokemonController.create s "Pikachu" "Electric" true).2
          "Pikachu").isSome then 200 else 404) = 200
      rw [hs2]
      exact if_pos hsome
    · refine ⟨q, ?_, ?_⟩
      · show PokemonRepository.findOne
          (PokemonController.create s "Pikachu" "Electric" true).2
          "Pikachu" = some q
        rw [hs2]
        exact hq
      · have := List.find?_some hq
        simpa using this

/-- C9 witness: the round trip on the empty store with a succeeding insert. -/
theorem C9_witness :
    (PokemonController.getOne
      (PokemonController.create ([] : Store) "Pikachu" "Electric" true).2
      "Pikachu").1.status = 200 ∧
    ∃ p, (PokemonController.getOne
      (PokemonController.create ([] : Store) "Pikachu" "Electric" true).2
      "Pikachu").1.data = some p ∧ p.name = "Pikachu" :=
  C9_create_getOne_roundtrip [] true (by decide)

/-- C10: the read operations `list`, `getOne` and `count` leave the store
untouched for every store state and every request. -/
theorem C10_reads_leave_store (s : Store) (qlimit qpage : Option Int)
    (name : String) :
    (PokemonController.list s qlimit qpage).2 = s ∧
    (PokemonController.getOne s name).2 = s ∧
    (PokemonController.count s).2 = s :=
  ⟨rfl, rfl, rfl⟩
